import Mathlib

/-!
# Data Flow Analyzer — verification of the service layer

Shallow embedding of `src/main.py`: a small HTTP service exposing
descriptive statistics (`/stats`, `/analyze`) and an ARIMA forecast
(`/forecast/arima`).  Numeric values (Python floats) are modelled as
rationals; the standard deviation, which involves a square root, lives in
the reals.  An endpoint either returns a response value or raises an
`HTTPException` carrying a status code and a detail string, modelled as
`Except HttpError α`.

The ARIMA fitting/forecasting routine itself is an external library
(`statsmodels`), outside this repository; the spec treats it as an external
capability specified only by its interface.  It is modelled as a parameter
of type `ArimaEngine` (a pure function, hence deterministic, as the spec
states), and where a claim needs its behaviour the spec's contract —
on success the forecast has exactly `steps` entries — is taken as a
hypothesis.
-/

/-- `DataItem` from `main.py`: a named value with a category label. -/
structure DataItem where
  name : String
  value : ℚ
  category : String
deriving DecidableEq, Repr

/-- `DataStats` from `main.py`: mean, median, standard deviation and count.
The standard deviation is real-valued because it involves a square root. -/
structure DataStats where
  mean : ℚ
  median : ℚ
  std : ℝ
  count : ℕ

/-- Per-category statistics produced by the `/analyze` endpoint:
mean, median, std, count and sum. -/
structure GroupStats where
  mean : ℚ
  median : ℚ
  std : ℝ
  count : ℕ
  sum : ℚ

/-- `ArimaRequest` from `main.py`: the input series, the `(p, d, q)` order
triple and the number of forecast steps.  The field types follow the
pydantic model (`tuple[int, int, int]`, `int`): nothing constrains the
signs. -/
structure ArimaRequest where
  values : List ℚ
  order : ℤ × ℤ × ℤ
  steps : ℤ
deriving DecidableEq, Repr

/-- `ArimaForecast` from `main.py`: the forecast values and the model order. -/
structure ArimaForecast where
  forecast : List ℚ
  model_order : ℤ × ℤ × ℤ
deriving DecidableEq, Repr

/-- An `HTTPException`: a status code and a human-readable detail string. -/
structure HttpError where
  status_code : ℕ
  detail : String
deriving DecidableEq, Repr

deriving instance DecidableEq for Except

/-- Pydantic applies the declared defaults to omitted fields of
`ArimaRequest`: `order = (1, 1, 1)` and `steps = 10` (`main.py`, the
`ArimaRequest` model). -/
def mkArimaRequest (values : List ℚ) (order : Option (ℤ × ℤ × ℤ))
    (steps : Option ℤ) : ArimaRequest :=
  { values := values
    order := order.getD (1, 1, 1)
    steps := steps.getD 10 }

/-! ## numpy reductions -/

/-- `np.sum`. -/
def npSum (values : List ℚ) : ℚ := values.sum

/-- `np.mean`: sum divided by length. -/
def npMean (values : List ℚ) : ℚ := values.sum / values.length

/-- Insert a value into an ascending list, keeping it ascending. -/
def insertSorted (x : ℚ) : List ℚ → List ℚ
  | [] => [x]
  | y :: ys => if x ≤ y then x :: y :: ys else y :: insertSorted x ys

/-- `np.sort`: the values in ascending order (on rationals the sorted
permutation of a list is unique, so insertion sort models it exactly). -/
def sortValues (values : List ℚ) : List ℚ := values.foldr insertSorted []

/-- `np.median`: sort ascending; the middle element when the length is odd,
the average of the two middle elements when it is even.  (On the empty list
numpy yields NaN, which has no rational counterpart; every claim about the
median concerns non-empty input.) -/
def npMedian (values : List ℚ) : ℚ :=
  let s := sortValues values
  let n := values.length
  if n % 2 = 1 then s.getD (n / 2) 0
  else (s.getD (n / 2 - 1) 0 + s.getD (n / 2) 0) / 2

/-- The sum of squared deviations from the mean, `Σ (x − mean)²`. -/
def sumSqDev (values : List ℚ) : ℚ :=
  (values.map (fun x => (x - npMean values) ^ 2)).sum

/-- The population variance `np.std` squares: `Σ (x − mean)² / n`
(divisor `n`, not `n − 1`). -/
def popVar (values : List ℚ) : ℚ := sumSqDev values / values.length

/-- `np.std`: the population standard deviation, the square root of
`popVar`. -/
noncomputable def npStd (values : List ℚ) : ℝ := Real.sqrt ((popVar values : ℚ) : ℝ)

/-! ## The endpoints -/

/-- The `/stats` endpoint (`calculate_stats` in `main.py`): mean, median,
population standard deviation and count of the input values. -/
noncomputable def calculate_stats (values : List ℚ) : DataStats :=
  { mean := npMean values
    median := npMedian values
    std := npStd values
    count := values.length }

/-- `pandas.Series.unique` applied to the category column: the distinct
categories in order of first occurrence.  `seen` accumulates the categories
already emitted. -/
def uniqueAux : List String → List String → List String
  | [], _ => []
  | c :: rest, seen =>
      if c ∈ seen then uniqueAux rest seen else c :: uniqueAux rest (c :: seen)

/-- `df["category"].unique()`: distinct categories, first-occurrence order. -/
def uniqueCategories (categories : List String) : List String :=
  uniqueAux categories []

/-- The rows of the DataFrame whose category equals `c`, projected to the
value column: `df[df["category"] == c]["value"]`. -/
def groupValues (items : List DataItem) (c : String) : List ℚ :=
  (items.filter (fun it => it.category = c)).map DataItem.value

/-- The `/analyze` endpoint (`analyze_data` in `main.py`): for each distinct
category of the input, the mean, median, population standard deviation,
count and sum of that category's values, keyed by category. -/
noncomputable def analyze_data (items : List DataItem) : List (String × GroupStats) :=
  (uniqueCategories (items.map DataItem.category)).map fun c =>
    (c, { mean := npMean (groupValues items c)
          median := npMedian (groupValues items c)
          std := npStd (groupValues items c)
          count := (groupValues items c).length
          sum := npSum (groupValues items c) })

/-- Modelled from the spec: the external ARIMA fitting-and-forecasting
capability (`ARIMA(values, order).fit().forecast(steps)` from
`statsmodels`, not part of this repository).  Given the series, the order
triple and the horizon it either produces the forecast values or fails with
an error message.  Being a Lean function it is deterministic, which is
what the spec states ("no randomness or seeding is involved"). -/
def ArimaEngine : Type :=
  List ℚ → ℤ × ℤ × ℤ → ℤ → Except String (List ℚ)

/-- The spec's contract for the engine: on success the forecast has exactly
`steps` entries ("produce exactly `steps` sequential point forecasts"). -/
def EngineStepsContract (fitForecast : ArimaEngine) : Prop :=
  ∀ v o s f, fitForecast v o s = Except.ok f → (f.length : ℤ) = s

/-- The `/forecast/arima` endpoint (`forecast_arima` in `main.py`),
parameterised by the external engine: reject inputs shorter than 10 values
with a 400, otherwise run the engine and either return its forecast
together with the request's order, or surface the engine's failure as a
500 wrapping the message. -/
def forecast_arima (fitForecast : ArimaEngine) (request : ArimaRequest) :
    Except HttpError ArimaForecast :=
  if request.values.length < 10 then
    Except.error ⟨400, "At least 10 values are required for ARIMA."⟩
  else
    match fitForecast request.values request.order request.steps with
    | Except.ok f => Except.ok ⟨f, request.order⟩
    | Except.error e => Except.error ⟨500, "Error in ARIMA model: " ++ e⟩

/-! ## Concrete instances used by the witnesses -/

/-- A ten-value series. -/
def demoValues : List ℚ := [1, 2, 3, 4, 5, 6, 7, 8, 9, 10]

/-- A simple engine satisfying the spec's contract: for a positive horizon
it forecasts `steps` zeros, otherwise it fails. -/
def demoEngine : ArimaEngine := fun _ _ s =>
  if 0 < s then Except.ok (List.replicate s.toNat 0) else Except.error "steps must be positive"

/-- An engine that always fails, standing for a fitting failure. -/
def failingEngine : ArimaEngine := fun _ _ _ =>
  Except.error "LU decomposition error"

/-- The grouped-analysis input of the spec's example: values 10 and 20 in
category "A", value 15 in category "B". -/
def demoItems : List DataItem :=
  [⟨"item1", 10, "A"⟩, ⟨"item2", 20, "A"⟩, ⟨"item3", 15, "B"⟩]

/-- `demoEngine` satisfies the spec's steps contract. -/
theorem demoEngine_contract : EngineStepsContract demoEngine := by
  intro v o s f h
  unfold demoEngine at h
  split at h
  · cases h
    simp [List.length_replicate, Int.toNat_of_nonneg (le_of_lt (by assumption))]
  · cases h

/-- C1: a request with fewer than 10 values is rejected with status 400 and
detail exactly "At least 10 values are required for ARIMA.", for every
order and steps; the engine is never consulted (the result is the same for
every engine). -/
theorem forecast_short_values_rejected_400 (fit fit' : ArimaEngine)
    (req : ArimaRequest) (h : req.values.length < 10) :
    forecast_arima fit req =
      Except.error ⟨400, "At least 10 values are required for ARIMA."⟩ ∧
    forecast_arima fit req = forecast_arima fit' req := by
  constructor <;> simp [forecast_arima, h]

/-- C1 witness: a four-value request, order (5,5,5), steps 3, under two
different engines. -/
theorem forecast_short_values_rejected_400_witness :
    (ArimaRequest.mk [1, 2, 3, 4] (5, 5, 5) 3).values.length < 10 ∧
    (forecast_arima demoEngine (ArimaRequest.mk [1, 2, 3, 4] (5, 5, 5) 3) =
       Except.error ⟨400, "At least 10 values are required for ARIMA."⟩ ∧
     forecast_arima demoEngine (ArimaRequest.mk [1, 2, 3, 4] (5, 5, 5) 3) =
       forecast_arima failingEngine (ArimaRequest.mk [1, 2, 3, 4] (5, 5, 5) 3)) :=
  ⟨by decide,
   forecast_short_values_rejected_400 demoEngine failingEngine
     (ArimaRequest.mk [1, 2, 3, 4] (5, 5, 5) 3) (by decide)⟩

/-- Inverting a successful run of the endpoint: the engine succeeded with
exactly the returned forecast, and the returned order is the request's. -/
theorem forecast_arima_ok_elim {fit : ArimaEngine} {req : ArimaRequest}
    {out : ArimaForecast} (h : forecast_arima fit req = Except.ok out) :
    fit req.values req.order req.steps = Except.ok out.forecast ∧
    out.model_order = req.order := by
  unfold forecast_arima at h
  split at h
  · cases h
  · cases he : fit req.values req.order req.steps with
    | ok f => rw [he] at h; cases h; exact ⟨rfl, rfl⟩
    | error e => rw [he] at h; cases h

/-- C2: whenever the forecast endpoint succeeds, the returned forecast has
length exactly `steps` (given the spec's contract for the external
engine). -/
theorem forecast_success_length_eq_steps (fit : ArimaEngine)
    (hfit : EngineStepsContract fit) (req : ArimaRequest) (out : ArimaForecast)
    (h : forecast_arima fit req = Except.ok out) :
    (out.forecast.length : ℤ) = req.steps :=
  hfit _ _ _ _ (forecast_arima_ok_elim h).1

/-- C2 witness: ten values, steps 5, under the demo engine; the forecast
has 5 entries. -/
theorem forecast_success_length_eq_steps_witness :
    forecast_arima demoEngine (ArimaRequest.mk demoValues (1, 1, 1) 5) =
      Except.ok (ArimaForecast.mk (List.replicate 5 0) (1, 1, 1)) ∧
    ((ArimaForecast.mk (List.replicate 5 0) (1, 1, 1)).forecast.length : ℤ) =
      (ArimaRequest.mk demoValues (1, 1, 1) 5).steps :=
  ⟨by decide,
   forecast_success_length_eq_steps demoEngine demoEngine_contract
     (ArimaRequest.mk demoValues (1, 1, 1) 5)
     (ArimaForecast.mk (List.replicate 5 0) (1, 1, 1)) (by decide)⟩

/-- C3: whenever the forecast endpoint succeeds, the response's
`model_order` is the request's `order`, unchanged. -/
theorem forecast_success_echoes_order (fit : ArimaEngine) (req : ArimaRequest)
    (out : ArimaForecast) (h : forecast_arima fit req = Except.ok out) :
    out.model_order = req.order :=
  (forecast_arima_ok_elim h).2

/-- C3 witness: a successful request with order (2, 1, 3) gets (2, 1, 3)
echoed back. -/
theorem forecast_success_echoes_order_witness :
    forecast_arima demoEngine (ArimaRequest.mk demoValues (2, 1, 3) 4) =
      Except.ok (ArimaForecast.mk (List.replicate 4 0) (2, 1, 3)) ∧
    (ArimaForecast.mk (List.replicate 4 0) (2, 1, 3)).model_order =
      (ArimaRequest.mk demoValues (2, 1, 3) 4).order :=
  ⟨by decide,
   forecast_success_echoes_order demoEngine (ArimaRequest.mk demoValues (2, 1, 3) 4)
     (ArimaForecast.mk (List.replicate 4 0) (2, 1, 3)) (by decide)⟩

/-- C4: past the length check, an engine failure with message `e` surfaces
as status 500 with detail exactly "Error in ARIMA model: " followed by `e`,
and no forecast data is returned. -/
theorem forecast_engine_failure_500 (fit : ArimaEngine) (req : ArimaRequest)
    (e : String) (hlen : 10 ≤ req.values.length)
    (he : fit req.values req.order req.steps = Except.error e) :
    forecast_arima fit req =
      Except.error ⟨500, "Error in ARIMA model: " ++ e⟩ ∧
    ∀ out : ArimaForecast, forecast_arima fit req ≠ Except.ok out := by
  have h400 : ¬ req.values.length < 10 := Nat.not_lt.mpr hlen
  refine ⟨?_, ?_⟩
  · simp [forecast_arima, h400, he]
  · intro out
    simp [forecast_arima, h400, he]

/-- C4 witness: the always-failing engine on a ten-value request yields the
500 wrapping its message. -/
theorem forecast_engine_failure_500_witness :
    10 ≤ (ArimaRequest.mk demoValues (1, 1, 1) 5).values.length ∧
    failingEngine (ArimaRequest.mk demoValues (1, 1, 1) 5).values
        (ArimaRequest.mk demoValues (1, 1, 1) 5).order
        (ArimaRequest.mk demoValues (1, 1, 1) 5).steps =
      Except.error "LU decomposition error" ∧
    (forecast_arima failingEngine (ArimaRequest.mk demoValues (1, 1, 1) 5) =
       Except.error ⟨500, "Error in ARIMA model: " ++ "LU decomposition error"⟩ ∧
     ∀ out : ArimaForecast,
       forecast_arima failingEngine (ArimaRequest.mk demoValues (1, 1, 1) 5) ≠
         Except.ok out) :=
  ⟨by decide, by decide,
   forecast_engine_failure_500 failingEngine (ArimaRequest.mk demoValues (1, 1, 1) 5)
     "LU decomposition error" (by decide) (by decide)⟩

/-- C5: the forecast operation is deterministic: two requests with equal
values, equal order and equal steps, evaluated independently against the
same engine, give identical results. -/
theorem forecast_deterministic (fit : ArimaEngine) (v v' : List ℚ)
    (o o' : ℤ × ℤ × ℤ) (s s' : ℤ) (hv : v = v') (ho : o = o') (hs : s = s') :
    forecast_arima fit (ArimaRequest.mk v o s) =
      forecast_arima fit (ArimaRequest.mk v' o' s') := by
  rw [hv, ho, hs]

/-- C5 witness: two identical concrete requests give identical results. -/
theorem forecast_deterministic_witness :
    demoValues = demoValues ∧
    forecast_arima demoEngine (ArimaRequest.mk demoValues (2, 1, 3) 7) =
      forecast_arima demoEngine (ArimaRequest.mk demoValues (2, 1, 3) 7) :=
  ⟨rfl,
   forecast_deterministic demoEngine demoValues demoValues (2, 1, 3) (2, 1, 3)
     7 7 rfl rfl rfl⟩

/-- C6: an omitted `order` defaults to (1, 1, 1) and an omitted `steps`
defaults to 10, and a request with both omitted is processed exactly as the
explicit request with order (1, 1, 1) and steps 10. -/
theorem arima_request_defaults (fit : ArimaEngine) (v : List ℚ)
    (o : ℤ × ℤ × ℤ) (s : ℤ) :
    (mkArimaRequest v none (some s)).order = (1, 1, 1) ∧
    (mkArimaRequest v (some o) none).steps = 10 ∧
    forecast_arima fit (mkArimaRequest v none none) =
      forecast_arima fit (ArimaRequest.mk v (1, 1, 1) 10) :=
  ⟨rfl, rfl, rfl⟩

/-- C10: the length check is the only validation: with at least 10 values
the endpoint never answers 400 — whatever the order's signs or the steps
value, the request reaches the engine, whose failure surfaces on the 500
path and whose success is returned as-is. -/
theorem length_check_only_validation (fit : ArimaEngine) (req : ArimaRequest)
    (hlen : 10 ≤ req.values.length) :
    (∀ d : String, forecast_arima fit req ≠ Except.error ⟨400, d⟩) ∧
    (∀ e : String, fit req.values req.order req.steps = Except.error e →
        forecast_arima fit req =
          Except.error ⟨500, "Error in ARIMA model: " ++ e⟩) ∧
    (∀ f : List ℚ, fit req.values req.order req.steps = Except.ok f →
        forecast_arima fit req = Except.ok ⟨f, req.order⟩) := by
  have h400 : ¬ req.values.length < 10 := Nat.not_lt.mpr hlen
  refine ⟨?_, ?_, ?_⟩
  · intro d hcontra
    unfold forecast_arima at hcontra
    rw [if_neg h400] at hcontra
    cases he : fit req.values req.order req.steps with
    | ok f => rw [he] at hcontra; cases hcontra
    | error e =>
        rw [he] at hcontra
        have : (500 : ℕ) = 400 := congrArg HttpError.status_code
          (Except.error.inj hcontra)
        cases this
  · intro e he
    simp [forecast_arima, h400, he]
  · intro f hf
    simp [forecast_arima, h400, hf]

/-- C10 witness: ten values with a negative order (-1, -1, -1) and steps 0
are not rejected as 400; the engine's failure comes back as a 500. -/
theorem length_check_only_validation_witness :
    10 ≤ (ArimaRequest.mk demoValues (-1, -1, -1) 0).values.length ∧
    ((∀ d : String,
        forecast_arima failingEngine (ArimaRequest.mk demoValues (-1, -1, -1) 0) ≠
          Except.error ⟨400, d⟩) ∧
     (∀ e : String,
        failingEngine (ArimaRequest.mk demoValues (-1, -1, -1) 0).values
            (ArimaRequest.mk demoValues (-1, -1, -1) 0).order
            (ArimaRequest.mk demoValues (-1, -1, -1) 0).steps = Except.error e →
        forecast_arima failingEngine (ArimaRequest.mk demoValues (-1, -1, -1) 0) =
          Except.error ⟨500, "Error in ARIMA model: " ++ e⟩) ∧
     (∀ f : List ℚ,
        failingEngine (ArimaRequest.mk demoValues (-1, -1, -1) 0).values
            (ArimaRequest.mk demoValues (-1, -1, -1) 0).order
            (ArimaRequest.mk demoValues (-1, -1, -1) 0).steps = Except.ok f →
        forecast_arima failingEngine (ArimaRequest.mk demoValues (-1, -1, -1) 0) =
          Except.ok ⟨f, (ArimaRequest.mk demoValues (-1, -1, -1) 0).order⟩)) :=
  ⟨by decide,
   length_check_only_validation failingEngine
     (ArimaRequest.mk demoValues (-1, -1, -1) 0) (by decide)⟩

/-- C7: the `/stats` count equals the input length for every input, and
on [1, 2, 3, 4, 5] the mean is 3, the median is 3 and the count is 5. -/
theorem stats_count_and_example :
    (∀ values : List ℚ, (calculate_stats values).count = values.length) ∧
    (calculate_stats [1, 2, 3, 4, 5]).mean = 3 ∧
    (calculate_stats [1, 2, 3, 4, 5]).median = 3 ∧
    (calculate_stats [1, 2, 3, 4, 5]).count = 5 :=
  ⟨fun _ => rfl,
   by simp only [calculate_stats]; norm_num [npMean, List.sum_cons, List.sum_nil],
   by decide, rfl⟩

/-- The summands of `sumSqDev` are squares, so the sum is non-negative. -/
theorem sumSqDev_nonneg (values : List ℚ) : 0 ≤ sumSqDev values := by
  apply List.sum_nonneg
  intro x hx
  obtain ⟨y, -, rfl⟩ := List.mem_map.mp hx
  positivity

/-- The population variance is non-negative. -/
theorem popVar_nonneg (values : List ℚ) : 0 ≤ popVar values :=
  div_nonneg (sumSqDev_nonneg values) (by positivity)

/-- Squaring `npStd` recovers the population variance. -/
theorem npStd_sq (values : List ℚ) : npStd values ^ 2 = ((popVar values : ℚ) : ℝ) := by
  rw [npStd, Real.sq_sqrt]
  exact_mod_cast popVar_nonneg values

/-- An entry of `analyze_data` holds exactly the reductions of its
category's values. -/
theorem analyze_data_mem {items : List DataItem} {c : String} {gs : GroupStats}
    (h : (c, gs) ∈ analyze_data items) :
    gs = { mean := npMean (groupValues items c)
           median := npMedian (groupValues items c)
           std := npStd (groupValues items c)
           count := (groupValues items c).length
           sum := npSum (groupValues items c) } := by
  obtain ⟨c', hc', heq⟩ := List.mem_map.mp h
  rw [Prod.mk.injEq] at heq
  obtain ⟨rfl, hgs⟩ := heq
  exact hgs.symm

/-- C8: the std field of the stats operations is the population standard
deviation: it is non-negative and its square times the count is the sum of
squared deviations (divisor `n`); both endpoints' std fields are that value;
and on [1, 2, 3] the divisor is not `n − 1`. -/
theorem std_is_population_stddev :
    (∀ values : List ℚ, values ≠ [] →
        0 ≤ npStd values ∧
        npStd values ^ 2 * (values.length : ℝ) = ((sumSqDev values : ℚ) : ℝ)) ∧
    (∀ values : List ℚ, (calculate_stats values).std = npStd values) ∧
    (∀ (items : List DataItem) (c : String) (gs : GroupStats),
        (c, gs) ∈ analyze_data items → gs.std = npStd (groupValues items c)) ∧
    npStd [1, 2, 3] ^ 2 * ((([1, 2, 3] : List ℚ).length : ℝ) - 1) ≠
      ((sumSqDev [1, 2, 3] : ℚ) : ℝ) := by
  refine ⟨?_, fun _ => rfl, ?_, ?_⟩
  · intro values hne
    refine ⟨Real.sqrt_nonneg _, ?_⟩
    have hlen0 : values.length ≠ 0 := by
      intro hc
      exact hne (List.length_eq_zero.mp hc)
    have hcast : ((values.length : ℕ) : ℝ) ≠ 0 := Nat.cast_ne_zero.mpr hlen0
    rw [npStd_sq, popVar]
    push_cast
    rw [div_mul_cancel₀ _ hcast]
  · intro items c gs h
    rw [analyze_data_mem h]
  · have h2 : sumSqDev [1, 2, 3] = 2 := by
      norm_num [sumSqDev, npMean, List.map_cons, List.map_nil,
        List.sum_cons, List.sum_nil]
    have h1 : popVar [1, 2, 3] = 2 / 3 := by
      rw [popVar, h2]
      norm_num
    have h3 : ([1, 2, 3] : List ℚ).length = 3 := rfl
    rw [npStd_sq, h1, h2, h3]
    push_cast
    norm_num

/-- `uniqueAux l seen` holds exactly the members of `l` not in `seen`. -/
theorem uniqueAux_mem : ∀ (l seen : List String) (x : String),
    x ∈ uniqueAux l seen ↔ x ∈ l ∧ x ∉ seen := by
  intro l
  induction l with
  | nil => intro seen x; simp [uniqueAux]
  | cons c rest ih =>
    intro seen x
    by_cases hc : c ∈ seen
    · rw [uniqueAux, if_pos hc, ih]
      constructor
      · rintro ⟨hx, hns⟩
        exact ⟨List.mem_cons_of_mem _ hx, hns⟩
      · rintro ⟨hx, hns⟩
        rcases List.mem_cons.mp hx with rfl | hx
        · exact absurd hc hns
        · exact ⟨hx, hns⟩
    · rw [uniqueAux, if_neg hc]
      simp only [List.mem_cons, ih]
      by_cases hxc : x = c
      · subst hxc
        simp [hc]
      · simp [hxc]

/-- `uniqueAux` never repeats a category. -/
theorem uniqueAux_nodup : ∀ (l seen : List String), (uniqueAux l seen).Nodup := by
  intro l
  induction l with
  | nil => intro seen; simp [uniqueAux]
  | cons c rest ih =>
    intro seen
    by_cases hc : c ∈ seen
    · rw [uniqueAux, if_pos hc]
      exact ih seen
    · rw [uniqueAux, if_neg hc]
      refine List.nodup_cons.mpr ⟨?_, ih (c :: seen)⟩
      intro hmem
      exact ((uniqueAux_mem rest (c :: seen) c).mp hmem).2 (List.mem_cons_self c _)

/-- The keys of `analyze_data` are the distinct categories of the input. -/
theorem analyze_data_keys (items : List DataItem) :
    (analyze_data items).map Prod.fst =
      uniqueCategories (items.map DataItem.category) := by
  rw [analyze_data, List.map_map]
  exact List.map_id _

/-- C9: grouped analysis yields one entry per distinct category (no key
repeats; the keys are exactly the input's categories), and every entry's
mean, median, std, count and sum are the plain reductions over that
category's values alone. -/
theorem analyze_groups_match_reductions (items : List DataItem)
    (h : items ≠ []) :
    ((analyze_data items).map Prod.fst).Nodup ∧
    (∀ c : String,
        c ∈ (analyze_data items).map Prod.fst ↔
          c ∈ items.map DataItem.category) ∧
    (∀ (c : String) (gs : GroupStats), (c, gs) ∈ analyze_data items →
        gs.mean = npMean (groupValues items c) ∧
        gs.median = npMedian (groupValues items c) ∧
        gs.std = npStd (groupValues items c) ∧
        gs.count = (groupValues items c).length ∧
        gs.sum = npSum (groupValues items c)) := by
  refine ⟨?_, ?_, ?_⟩
  · rw [analyze_data_keys]
    exact uniqueAux_nodup _ _
  · intro c
    rw [analyze_data_keys, uniqueCategories, uniqueAux_mem]
    simp
  · intro c gs hmem
    rw [analyze_data_mem hmem]
    exact ⟨rfl, rfl, rfl, rfl, rfl⟩

/-- C9 witness: on [(A,10), (A,20), (B,15)] the grouped analysis has the
stated shape, and concretely the keyed counts are A ↦ 2, B ↦ 1. -/
theorem analyze_groups_match_reductions_witness :
    demoItems ≠ [] ∧
    (((analyze_data demoItems).map Prod.fst).Nodup ∧
     (∀ c : String,
         c ∈ (analyze_data demoItems).map Prod.fst ↔
           c ∈ demoItems.map DataItem.category) ∧
     (∀ (c : String) (gs : GroupStats), (c, gs) ∈ analyze_data demoItems →
         gs.mean = npMean (groupValues demoItems c) ∧
         gs.median = npMedian (groupValues demoItems c) ∧
         gs.std = npStd (groupValues demoItems c) ∧
         gs.count = (groupValues demoItems c).length ∧
         gs.sum = npSum (groupValues demoItems c))) ∧
    (analyze_data demoItems).map (fun p => (p.1, p.2.count)) =
      [("A", 2), ("B", 1)] :=
  ⟨by decide, analyze_groups_match_reductions demoItems (by decide), by decide⟩
